import Mathlib

/-!
Verification of the PRB_models beam-solver core (`src/services/beamSolver.ts`)
against its natural-language specification.  The four solvers
(`solveNonlinearBeam`, `solveLinearBeam`, `solvePRB1R`, `solvePRB3R`) are
embedded shallowly over the real numbers: JavaScript numbers become `ℝ`,
`Math.cos`/`Math.sin`/`Math.abs` become `Real.cos`/`Real.sin`/`|·|`, and the
bounded `for` loops become structural recursion on an explicit fuel counter
equal to the source's fixed iteration cap.
-/

namespace PRB

/-- Structure `BeamParams` from `src/types` (`unnamed/part_000`): all SI quantities. -/
structure BeamParams where
  E : ℝ
  I : ℝ
  L : ℝ
  P : ℝ
  nP : ℝ
  M0 : ℝ
  c : ℝ
  A : ℝ

/-- Planar point, beam-local frame. -/
structure Point where
  x : ℝ
  y : ℝ

/-- The model selector enum from `src/types`. -/
inductive BeamModelType where
  | LINEAR
  | NONLINEAR
  | PRB_1R_CANTILEVER_P
  | PRB_1R_CANTILEVER_PNP
  | PRB_1R_MOMENT
  | PRB_3R_SU
deriving DecidableEq

/-- Structure `PrbParameters`, the diagnostic bag: every field is optional in the source. -/
structure PrbParameters where
  gamma : Option ℝ
  k_theta : Option ℝ
  c_theta : Option ℝ
  links : Option (List ℝ)
  stiffness_coeffs : Option (List ℝ)
  stiffness_physicals : Option (List ℝ)

/-- Structure `BeamResult` from `src/types`. -/
structure BeamResult where
  points : List Point
  tipX : ℝ
  tipY : ℝ
  tipAngle : ℝ
  maxStress : ℝ
  label : String
  color : String
  prbParams : Option PrbParameters

/-- Reads `points[points.length - 1]` on the nonempty lists built by the solvers. -/
def tipOf (pts : List Point) : Point := pts.getLastD ⟨0, 0⟩

noncomputable section

/-! ## Nonlinear shooting solver (`solveNonlinearBeam`) -/

/-- State of the inner ODE integration: position `(x, y)` and slope `theta`. -/
structure RKState where
  x : ℝ
  y : ℝ
  theta : ℝ

/-- One derivative triple, from the `getDerivatives` closure in the source:
`M = P(a-cx) + nP(b-cy) + M0`, `(dx, dy, dt) = (cos ct, sin ct, M/EI)`. -/
structure Deriv where
  dx : ℝ
  dy : ℝ
  dt : ℝ

def getDerivatives (p : BeamParams) (a b cx cy ct : ℝ) : Deriv :=
  let EI := p.E * p.I
  let M := p.P * (a - cx) + p.nP * (b - cy) + p.M0
  ⟨Real.cos ct, Real.sin ct, M / EI⟩

/-- One fourth-order Runge-Kutta step of size `ds`, exactly as in the source
body of the inner `for` loop. -/
def rk4Step (p : BeamParams) (a b ds : ℝ) (st : RKState) : RKState :=
  let k1 := getDerivatives p a b st.x st.y st.theta
  let k2 := getDerivatives p a b (st.x + k1.dx * ds / 2) (st.y + k1.dy * ds / 2)
    (st.theta + k1.dt * ds / 2)
  let k3 := getDerivatives p a b (st.x + k2.dx * ds / 2) (st.y + k2.dy * ds / 2)
    (st.theta + k2.dt * ds / 2)
  let k4 := getDerivatives p a b (st.x + k3.dx * ds) (st.y + k3.dy * ds)
    (st.theta + k3.dt * ds)
  ⟨st.x + (ds / 6) * (k1.dx + 2 * k2.dx + 2 * k3.dx + k4.dx),
   st.y + (ds / 6) * (k1.dy + 2 * k2.dy + 2 * k3.dy + k4.dy),
   st.theta + (ds / 6) * (k1.dt + 2 * k2.dt + 2 * k3.dt + k4.dt)⟩

/-- The inner integration loop: runs `n` RK4 steps from `st`, returning the
pushed points (one per step, in order) and the final state. -/
def rkTraj (p : BeamParams) (a b ds : ℝ) : ℕ → RKState → List Point × RKState
  | 0, st => ([], st)
  | n + 1, st =>
    let st2 := rk4Step p a b ds st
    let rest := rkTraj p a b ds n st2
    ((⟨st2.x, st2.y⟩ : Point) :: rest.1, rest.2)

/-- One full inner integration of the source: 100 steps of size `L/100`
from `(x, y, θ) = (0, 0, 0)`. -/
def innerTraj (p : BeamParams) (a b : ℝ) : List Point × RKState :=
  rkTraj p a b (p.L / 100) 100 ⟨0, 0, 0⟩

/-- Variables of the outer shooting loop after it finishes:
the surviving `points`, `finalTheta`, and the guess `(a, b)`. -/
structure ShootOut where
  points : List Point
  finalTheta : ℝ
  a : ℝ
  b : ℝ

/-- The outer shooting loop (`for (iter = 0; iter < 15; iter++)`), with fuel
equal to the remaining iteration budget.  Each call performs one loop body:
integrate, test the residual, and either break, run out of budget after the
damped update, or recurse with the updated guess. -/
def shootAux (p : BeamParams) : ℕ → ℝ → ℝ → ShootOut
  | 0, a, b => ⟨[⟨0, 0⟩], 0, a, b⟩
  | n + 1, a, b =>
    let traj := innerTraj p a b
    let pts : List Point := ⟨0, 0⟩ :: traj.1
    let tip := tipOf pts
    let ex := tip.x - a
    let ey := tip.y - b
    if |ex| < 1e-6 ∧ |ey| < 1e-6 then ⟨pts, traj.2.theta, a, b⟩
    else if n = 0 then ⟨pts, traj.2.theta, a + ex * 0.5, b + ey * 0.5⟩
    else shootAux p n (a + ex * 0.5) (b + ey * 0.5)

def solveNonlinearBeam (p : BeamParams) : BeamResult :=
  let EI := p.E * p.I
  if EI = 0 then ⟨[], 0, 0, 0, 0, "Nonlinear", "#ef4444", none⟩
  else
    let out := shootAux p 15 p.L 0
    let tip := tipOf out.points
    ⟨out.points, tip.x, tip.y, out.finalTheta,
     |(p.P * out.a + p.nP * out.b + p.M0) * p.c / p.I|,
     "Nonlinear", "#ef4444", none⟩

/-- The converged guess `(a, b)` left in the shooting loop's variables when
`solveNonlinearBeam` builds its result. -/
def shootFinalGuess (p : BeamParams) : ℝ × ℝ :=
  let out := shootAux p 15 p.L 0
  (out.a, out.b)

/-! ## Linear solver (`solveLinearBeam`) -/

/-- The station deflection formula of the linear solver. -/
def linearY (p : BeamParams) (x : ℝ) : ℝ :=
  let EI := p.E * p.I
  (p.P * x ^ 2 / (6 * EI)) * (3 * p.L - x) + (p.M0 * x ^ 2) / (2 * EI)

def solveLinearBeam (p : BeamParams) : BeamResult :=
  let EI := p.E * p.I
  let points := (List.range 51).map fun i : ℕ =>
    (⟨((i : ℝ) / 50) * p.L, linearY p (((i : ℝ) / 50) * p.L)⟩ : Point)
  let tip := tipOf points
  ⟨points, p.L, tip.y,
   (p.P * p.L * p.L) / (2 * EI) + (p.M0 * p.L) / EI,
   |(p.P * p.L + p.M0) * p.c / p.I|,
   "Linear", "#3b82f6", none⟩

/-! ## PRB 1R solver (`solvePRB1R`) -/

/-- The constants the source's `if`/`else if` chain on the selector leaves in
`gamma`, `K_theta`, `c_theta`, `label`, `color`.  Any selector other than the
three PRB-1R cases keeps the declared defaults. -/
structure Prb1RConsts where
  gamma : ℝ
  K_theta : ℝ
  c_theta : ℝ
  label : String
  color : String

def prb1rConsts (n : ℝ) (type : BeamModelType) : Prb1RConsts :=
  match type with
  | BeamModelType.PRB_1R_CANTILEVER_P =>
    ⟨0.8517, 2.6706, 1.2407, "PRB 1R (P)", "#22c55e"⟩
  | BeamModelType.PRB_1R_CANTILEVER_PNP =>
    let g := if n > -1.83 then 0.8521 - 0.0183 * n else 0.9123 + 0.0146 * n
    ⟨max 0.7 (min 0.95 g), 2.65, 1.24, "PRB 1R (nP)", "#f59e0b"⟩
  | BeamModelType.PRB_1R_MOMENT =>
    ⟨0.7346, 1.5164, 1.0, "PRB 1R (M)", "#ec4899"⟩
  | _ => ⟨0.85, 2.65, 1.24, "", ""⟩

/-- The damped Newton-Raphson loop of `solvePRB1R` (30 iterations, damping
0.8, early exit when `|delta| < 1e-8`, checked after the update). -/
def newtonLoop (K gamma L P nP M0 : ℝ) : ℕ → ℝ → ℝ
  | 0, Th => Th
  | n + 1, Th =>
    let f := K * Th - (P * gamma * L * Real.cos Th + nP * gamma * L * Real.sin Th + M0)
    let df := K + P * gamma * L * Real.sin Th - nP * gamma * L * Real.cos Th
    let delta := f / df
    let Th2 := Th - delta * 0.8
    if |delta| < 1e-8 then Th2 else newtonLoop K gamma L P nP M0 n Th2

def solvePRB1R (p : BeamParams) (type : BeamModelType) : BeamResult :=
  let EI := p.E * p.I
  let n := if p.P ≠ 0 then p.nP / p.P else 0
  let cs := prb1rConsts n type
  let K := cs.gamma * cs.K_theta * (EI / p.L)
  let Th := newtonLoop K cs.gamma p.L p.P p.nP p.M0 30 0
  let a := p.L * (1 - cs.gamma) + cs.gamma * p.L * Real.cos Th
  let b := cs.gamma * p.L * Real.sin Th
  ⟨[⟨0, 0⟩, ⟨p.L * (1 - cs.gamma), 0⟩, ⟨a, b⟩], a, b, cs.c_theta * Th, 0,
   cs.label, cs.color,
   some ⟨some cs.gamma, some cs.K_theta, some cs.c_theta, none, none, some [K]⟩⟩

/-! ## PRB 3R solver (`solvePRB3R`) -/

/-- Su Table A.5.3 link-length ratios, fixed constants of the source. -/
def g0 : ℝ := 0.1
def g1 : ℝ := 0.35
def g2 : ℝ := 0.40
def g3 : ℝ := 0.15

/-- Su Table A.5.3 nondimensional stiffness coefficients. -/
def K_c1 : ℝ := 3.51
def K_c2 : ℝ := 2.99
def K_c3 : ℝ := 2.58

/-- One body of the 150-iteration relaxation loop of `solvePRB3R`. -/
def prb3rStep (p : BeamParams) (T : ℝ × ℝ × ℝ) : ℝ × ℝ × ℝ :=
  let EI := p.E * p.I
  let K1 := K_c1 * (EI / p.L)
  let K2 := K_c2 * (EI / p.L)
  let K3 := K_c3 * (EI / p.L)
  let T1 := T.1
  let T2 := T.2.1
  let T3 := T.2.2
  let a := p.L * (g0 + g1 * Real.cos T1 + g2 * Real.cos (T1 + T2) +
    g3 * Real.cos (T1 + T2 + T3))
  let b := p.L * (g1 * Real.sin T1 + g2 * Real.sin (T1 + T2) +
    g3 * Real.sin (T1 + T2 + T3))
  let x1 := g0 * p.L + g1 * p.L * Real.cos T1
  let y1 := g1 * p.L * Real.sin T1
  let x2 := x1 + g2 * p.L * Real.cos (T1 + T2)
  let y2 := y1 + g2 * p.L * Real.sin (T1 + T2)
  let M1 := p.P * (a - g0 * p.L) + p.nP * (b - 0) + p.M0
  let M2 := p.P * (a - x1) + p.nP * (b - y1) + p.M0
  let M3 := p.P * (a - x2) + p.nP * (b - y2) + p.M0
  (T1 + (M1 / K1 - T1) * 0.1, T2 + (M2 / K2 - T2) * 0.1, T3 + (M3 / K3 - T3) * 0.1)

def prb3rLoop (p : BeamParams) : ℕ → ℝ × ℝ × ℝ → ℝ × ℝ × ℝ
  | 0, T => T
  | n + 1, T => prb3rLoop p n (prb3rStep p T)

def solvePRB3R (p : BeamParams) : BeamResult :=
  let EI := p.E * p.I
  let K1 := K_c1 * (EI / p.L)
  let K2 := K_c2 * (EI / p.L)
  let K3 := K_c3 * (EI / p.L)
  let T := prb3rLoop p 150 (0, 0, 0)
  let p1 : Point := ⟨g0 * p.L, 0⟩
  let p2 : Point := ⟨p1.x + g1 * p.L * Real.cos T.1, p1.y + g1 * p.L * Real.sin T.1⟩
  let p3 : Point := ⟨p2.x + g2 * p.L * Real.cos (T.1 + T.2.1),
    p2.y + g2 * p.L * Real.sin (T.1 + T.2.1)⟩
  let p4 : Point := ⟨p3.x + g3 * p.L * Real.cos (T.1 + T.2.1 + T.2.2),
    p3.y + g3 * p.L * Real.sin (T.1 + T.2.1 + T.2.2)⟩
  ⟨[⟨0, 0⟩, p1, p2, p3, p4], p4.x, p4.y, T.1 + T.2.1 + T.2.2, 0,
   "PRB 3R", "#8b5cf6",
   some ⟨none, none, none, some [g0, g1, g2, g3], some [K_c1, K_c2, K_c3],
     some [K1, K2, K3]⟩⟩

/-! ## Spec-side description of the nonlinear shooting algorithm

These definitions follow the wording of the specification (section 4.2): the
state at integration node `i` is the `i`-fold iterate of one RK4 step, the
trajectory is the list of the 101 node positions, the integrated tip is node
100, and the outer loop keeps a guess, measures the residual
`integrated tip - guess`, updates by the damped correction
`guess + 0.5 * residual`, caps the iterations at 15, and exits early once
both residual components are below `1e-6` in absolute value. -/

/-- Spec: the state after integrating `i` of the 100 equal steps. -/
def specNode (p : BeamParams) (a b : ℝ) (i : ℕ) : RKState :=
  (rk4Step p a b (p.L / 100))^[i] ⟨0, 0, 0⟩

/-- Spec: the integrated tip, i.e. the state at `s = L` (node 100). -/
def specTip (p : BeamParams) (a b : ℝ) : RKState := specNode p a b 100

/-- Spec: one integration trajectory — 101 points including the origin. -/
def specTraj (p : BeamParams) (a b : ℝ) : List Point :=
  (List.range 101).map fun i => (⟨(specNode p a b i).x, (specNode p a b i).y⟩ : Point)

/-- Spec: the outer shooting loop.  Returns the pair
(guess used for the last integration performed, final guess). -/
def specLoop (p : BeamParams) : ℕ → ℝ × ℝ → (ℝ × ℝ) × (ℝ × ℝ)
  | 0, g => (g, g)
  | n + 1, g =>
    let tip := specTip p g.1 g.2
    let r := (tip.x - g.1, tip.y - g.2)
    if |r.1| < 1e-6 ∧ |r.2| < 1e-6 then (g, g)
    else
      let g2 := (g.1 + 0.5 * r.1, g.2 + 0.5 * r.2)
      if n = 0 then (g, g2) else specLoop p n g2

/-- Spec: the guess `(a, b)` used for the last integration, starting from the
undeformed tip `(L, 0)` with at most 15 outer iterations. -/
def specGuess (p : BeamParams) : ℝ × ℝ := (specLoop p 15 (p.L, 0)).1

/-- The bending moment the solver attributes to the beam station at position
`(px, py)`, given the tip guess `(gx, gy)`:
`M = P (gx - px) + nP (gy - py) + M0`. -/
def momentAt (p : BeamParams) (gx gy px py : ℝ) : ℝ :=
  p.P * (gx - px) + p.nP * (gy - py) + p.M0

/-! ## Concrete parameter values used by witnesses and counterexamples -/

/-- Unit beam, stiffness `EI = 1`, a small vertical tip force `P = 0.1`. -/
def pStar : BeamParams := ⟨1, 1, 1, 0.1, 0, 0, 1, 1⟩

/-- Degenerate stiffness `EI = 0`, no loads. -/
def pZero : BeamParams := ⟨0, 0, 1, 0, 0, 0, 1, 1⟩

/-- The spec's linear closed-form fixture:
`E = 200e9, I = 1e-8, L = 1, P = 1, nP = 0, M0 = 0`. -/
def pSample : BeamParams := ⟨200e9, 1e-8, 1, 1, 0, 0, 1, 1⟩

/-- Nondegenerate no-load beam. -/
def pNoLoad : BeamParams := ⟨1, 1, 1, 0, 0, 0, 1, 1⟩

end

/-! ## Helper lemmas about the inner integration loop -/

lemma rkTraj_length (p : BeamParams) (a b ds : ℝ) :
    ∀ (n : ℕ) (st : RKState), (rkTraj p a b ds n st).1.length = n
  | 0, _ => rfl
  | n + 1, st => by
    simp only [rkTraj, List.length_cons, rkTraj_length p a b ds n]

lemma rkTraj_snd (p : BeamParams) (a b ds : ℝ) :
    ∀ (n : ℕ) (st : RKState), (rkTraj p a b ds n st).2 = (rk4Step p a b ds)^[n] st
  | 0, _ => rfl
  | n + 1, st => by
    rw [Function.iterate_succ_apply]
    simpa only [rkTraj] using rkTraj_snd p a b ds n (rk4Step p a b ds st)

lemma rkTraj_fst (p : BeamParams) (a b ds : ℝ) :
    ∀ (n : ℕ) (st : RKState), (rkTraj p a b ds n st).1 =
      (List.range n).map fun i =>
        (⟨((rk4Step p a b ds)^[i + 1] st).x, ((rk4Step p a b ds)^[i + 1] st).y⟩ : Point)
  | 0, _ => rfl
  | n + 1, st => by
    rw [List.range_succ_eq_map]
    simp only [rkTraj, List.map_cons, List.map_map]
    refine congrArg₂ List.cons (by rw [Function.iterate_one]) ?_
    rw [rkTraj_fst p a b ds n (rk4Step p a b ds st)]
    refine List.map_congr_left fun i _ => ?_
    have h : (rk4Step p a b ds)^[i + 1 + 1] st =
        (rk4Step p a b ds)^[i + 1] (rk4Step p a b ds st) :=
      Function.iterate_succ_apply (rk4Step p a b ds) (i + 1) st
    simp only [Function.comp_apply, Nat.succ_eq_add_one, h]

lemma rkTraj_getLastD (p : BeamParams) (a b ds : ℝ) :
    ∀ (n : ℕ) (st : RKState) (q : Point),
      (rkTraj p a b ds n st).1.getLastD q =
        if n = 0 then q
        else ⟨(rkTraj p a b ds n st).2.x, (rkTraj p a b ds n st).2.y⟩
  | 0, _, _ => rfl
  | n + 1, st, q => by
    simp only [rkTraj, List.getLastD_cons,
      rkTraj_getLastD p a b ds n (rk4Step p a b ds st)]
    cases n with
    | zero => simp [rkTraj]
    | succ m => simp

lemma innerTraj_snd (p : BeamParams) (a b : ℝ) :
    (innerTraj p a b).2 = specTip p a b := by
  unfold innerTraj specTip specNode
  exact rkTraj_snd p a b (p.L / 100) 100 ⟨0, 0, 0⟩

lemma pts_eq_specTraj (p : BeamParams) (a b : ℝ) :
    (⟨0, 0⟩ : Point) :: (innerTraj p a b).1 = specTraj p a b := by
  unfold innerTraj specTraj specNode
  rw [rkTraj_fst, List.range_succ_eq_map, List.map_cons, List.map_map]
  rfl

lemma tip_innerTraj (p : BeamParams) (a b : ℝ) :
    tipOf ((⟨0, 0⟩ : Point) :: (innerTraj p a b).1) =
      ⟨(specTip p a b).x, (specTip p a b).y⟩ := by
  unfold tipOf innerTraj
  rw [List.getLastD_cons, rkTraj_getLastD]
  rw [if_neg (by norm_num), rkTraj_snd]
  rfl

/-! ## Claim theorems -/

/-- C9: the four PRB-3R link-length ratio constants `g0 = 0.10`, `g1 = 0.35`,
`g2 = 0.40`, `g3 = 0.15` used by `solvePRB3R` sum to `1.0` exactly. -/
theorem claim_C9 : g0 + g1 + g2 + g3 = 1 := by
  unfold g0 g1 g2 g3; norm_num

/-- C3: when `E * I = 0`, `solveNonlinearBeam` returns the empty sentinel —
no points and zero tip state — instead of dividing by zero. -/
theorem claim_C3 (p : BeamParams) (h : p.E * p.I = 0) :
    (solveNonlinearBeam p).points = [] ∧ (solveNonlinearBeam p).tipX = 0 ∧
    (solveNonlinearBeam p).tipY = 0 ∧ (solveNonlinearBeam p).tipAngle = 0 ∧
    (solveNonlinearBeam p).maxStress = 0 := by
  unfold solveNonlinearBeam
  rw [if_pos h]
  exact ⟨rfl, rfl, rfl, rfl, rfl⟩

/-- Witness for C3 at the concrete degenerate beam `pZero`. -/
theorem claim_C3_witness :
    pZero.E * pZero.I = 0 ∧ (solveNonlinearBeam pZero).points = [] ∧
    (solveNonlinearBeam pZero).tipX = 0 ∧ (solveNonlinearBeam pZero).tipY = 0 ∧
    (solveNonlinearBeam pZero).tipAngle = 0 ∧
    (solveNonlinearBeam pZero).maxStress = 0 := by
  have h : pZero.E * pZero.I = 0 := by simp [pZero]
  obtain ⟨h1, h2, h3, h4, h5⟩ := claim_C3 pZero h
  exact ⟨h, h1, h2, h3, h4, h5⟩

lemma solveNonlinearBeam_of_ne (p : BeamParams) (h : p.E * p.I ≠ 0) :
    solveNonlinearBeam p =
      ⟨(shootAux p 15 p.L 0).points,
       (tipOf (shootAux p 15 p.L 0).points).x,
       (tipOf (shootAux p 15 p.L 0).points).y,
       (shootAux p 15 p.L 0).finalTheta,
       |(p.P * (shootAux p 15 p.L 0).a + p.nP * (shootAux p 15 p.L 0).b + p.M0) *
         p.c / p.I|,
       "Nonlinear", "#ef4444", none⟩ := by
  unfold solveNonlinearBeam
  rw [if_neg h]

lemma shootAux_length (p : BeamParams) :
    ∀ (fuel : ℕ), 1 ≤ fuel → ∀ (a b : ℝ), (shootAux p fuel a b).points.length = 101
  | 0, h => absurd h (by norm_num)
  | n + 1, _ => by
    intro a b
    simp only [shootAux]
    split_ifs with h1 h2
    · simp [innerTraj, rkTraj_length]
    · simp [innerTraj, rkTraj_length]
    · exact shootAux_length p n (Nat.one_le_iff_ne_zero.mpr h2) _ _

/-- C7: the polyline lengths are fixed by contract — the linear model always
returns exactly 51 points, PRB-1R always exactly 3, PRB-3R always exactly 5,
and the nonlinear model returns up to 101 points, exactly 101 when
`EI ≠ 0`. -/
theorem claim_C7 (p : BeamParams) (t : BeamModelType) :
    (solveLinearBeam p).points.length = 51 ∧
    (solvePRB1R p t).points.length = 3 ∧
    (solvePRB3R p).points.length = 5 ∧
    (solveNonlinearBeam p).points.length ≤ 101 ∧
    (p.E * p.I ≠ 0 → (solveNonlinearBeam p).points.length = 101) := by
  refine ⟨?_, by simp [solvePRB1R], by simp [solvePRB3R], ?_, ?_⟩
  · simp only [solveLinearBeam, List.length_map, List.length_range]
  · by_cases hq : p.E * p.I = 0
    · unfold solveNonlinearBeam
      rw [if_pos hq]
      simp
    · rw [solveNonlinearBeam_of_ne p hq]
      exact Nat.le_of_eq (shootAux_length p 15 (by norm_num) p.L 0)
  · intro h
    rw [solveNonlinearBeam_of_ne p h]
    exact shootAux_length p 15 (by norm_num) p.L 0

/-- Witness for C7 at the concrete beam `pStar` (with `EI ≠ 0` discharged for
the nonlinear conjunct) and the linear selector. -/
theorem claim_C7_witness :
    (solveLinearBeam pStar).points.length = 51 ∧
    (solvePRB1R pStar BeamModelType.LINEAR).points.length = 3 ∧
    (solvePRB3R pStar).points.length = 5 ∧
    (solveNonlinearBeam pStar).points.length ≤ 101 ∧
    pStar.E * pStar.I ≠ 0 ∧
    (solveNonlinearBeam pStar).points.length = 101 := by
  have h : pStar.E * pStar.I ≠ 0 := by simp [pStar]
  obtain ⟨h1, h2, h3, h4, h5⟩ := claim_C7 pStar BeamModelType.LINEAR
  exact ⟨h1, h2, h3, h4, h, h5 h⟩

lemma solveLinearBeam_tipY (p : BeamParams) :
    (solveLinearBeam p).tipY = linearY p (((50 : ℕ) : ℝ) / 50 * p.L) := by
  unfold solveLinearBeam tipOf
  have h : List.range 51 = List.range 50 ++ [50] := List.range_succ 50
  simp only [h, List.map_append, List.map_cons, List.map_nil, List.getLastD_concat]

/-- C2: `solveLinearBeam` samples 51 equally spaced stations `x = (i/50)·L`
with the superposed Euler-Bernoulli deflection
`y(x) = (P x²)/(6EI)·(3L − x) + (M0 x²)/(2EI)`, reports the tip at
`(L, y(L))`, tip slope `P L²/(2EI) + M0 L/EI`, and
`maxStress = |(P L + M0)·c/I|`; on the spec fixture `pSample` the tip values
are `1/(3·200e9·1e-8)` and `2.5e-4`. -/
theorem claim_C2 (p : BeamParams) (h : p.E * p.I ≠ 0) :
    (solveLinearBeam p).points.length = 51 ∧
    (∀ i : ℕ, i < 51 → (solveLinearBeam p).points[i]? =
      some ⟨(i : ℝ) / 50 * p.L,
        p.P * ((i : ℝ) / 50 * p.L) ^ 2 / (6 * (p.E * p.I)) *
          (3 * p.L - (i : ℝ) / 50 * p.L) +
        p.M0 * ((i : ℝ) / 50 * p.L) ^ 2 / (2 * (p.E * p.I))⟩) ∧
    (solveLinearBeam p).tipX = p.L ∧
    (solveLinearBeam p).tipY =
      p.P * p.L ^ 2 / (6 * (p.E * p.I)) * (3 * p.L - p.L) +
      p.M0 * p.L ^ 2 / (2 * (p.E * p.I)) ∧
    (solveLinearBeam p).tipAngle =
      p.P * p.L ^ 2 / (2 * (p.E * p.I)) + p.M0 * p.L / (p.E * p.I) ∧
    (solveLinearBeam p).maxStress = |(p.P * p.L + p.M0) * p.c / p.I| ∧
    (solveLinearBeam pSample).tipY = 1 / (3 * 200e9 * 1e-8) ∧
    (solveLinearBeam pSample).tipAngle = 2.5e-4 := by
  refine ⟨by simp [solveLinearBeam], ?_, rfl, ?_, ?_, rfl, ?_, ?_⟩
  · intro i hi
    simp only [solveLinearBeam, List.getElem?_map, List.getElem?_range hi,
      Option.map_some]
    unfold linearY
    norm_num
  · rw [solveLinearBeam_tipY]
    unfold linearY
    norm_num
  · show p.P * p.L * p.L / (2 * (p.E * p.I)) + p.M0 * p.L / (p.E * p.I) = _
    ring
  · rw [solveLinearBeam_tipY]
    unfold linearY
    norm_num [pSample]
  · show pSample.P * pSample.L * pSample.L / (2 * (pSample.E * pSample.I)) +
      pSample.M0 * pSample.L / (pSample.E * pSample.I) = 2.5e-4
    norm_num [pSample]

/-- Witness for C2 at the spec's own fixture `pSample`. -/
theorem claim_C2_witness :
    pSample.E * pSample.I ≠ 0 ∧ (solveLinearBeam pSample).tipX = pSample.L ∧
    (solveLinearBeam pSample).tipY = 1 / (3 * 200e9 * 1e-8) ∧
    (solveLinearBeam pSample).tipAngle = 2.5e-4 := by
  have h : pSample.E * pSample.I ≠ 0 := by norm_num [pSample]
  obtain ⟨_, _, h3, _, _, _, h7, h8⟩ := claim_C2 pSample h
  exact ⟨h, h3, h7, h8⟩

lemma prb1rConsts_PNP_gamma (n : ℝ) :
    (prb1rConsts n BeamModelType.PRB_1R_CANTILEVER_PNP).gamma =
      max 0.7 (min 0.95
        (if n > -1.83 then 0.8521 - 0.0183 * n else 0.9123 + 0.0146 * n)) := rfl

/-- C5: in the combined-force variant, `gamma` is the clamp to `[0.70, 0.95]`
of a piecewise-linear function of the load ratio `n = nP/P` with breakpoint
`n > -1.83`, so it always lies within `[0.70, 0.95]`; `K_theta = 2.65` and
`c_theta = 1.24` are fixed. -/
theorem claim_C5 (p : BeamParams) :
    ∃ γ : ℝ,
      (solvePRB1R p BeamModelType.PRB_1R_CANTILEVER_PNP).prbParams =
        some ⟨some γ, some 2.65, some 1.24, none, none,
          some [γ * 2.65 * (p.E * p.I / p.L)]⟩ ∧
      γ = max 0.7 (min 0.95
        (if (if p.P ≠ 0 then p.nP / p.P else 0) > -1.83
         then 0.8521 - 0.0183 * (if p.P ≠ 0 then p.nP / p.P else 0)
         else 0.9123 + 0.0146 * (if p.P ≠ 0 then p.nP / p.P else 0))) ∧
      0.7 ≤ γ ∧ γ ≤ 0.95 := by
  refine ⟨(prb1rConsts (if p.P ≠ 0 then p.nP / p.P else 0)
    BeamModelType.PRB_1R_CANTILEVER_PNP).gamma, rfl, prb1rConsts_PNP_gamma _, ?_, ?_⟩
  · rw [prb1rConsts_PNP_gamma]
    exact le_max_left _ _
  · rw [prb1rConsts_PNP_gamma]
    exact max_le (by norm_num) (min_le_left _ _)

/-- C8: when `P = 0` the load ratio `n` is defined as `0`, the un-clamped
combined-force `gamma` evaluates to `0.8521` (the `n > -1.83` fit at
`n = 0`), and the clamp leaves it unchanged in the reported parameters. -/
theorem claim_C8 (p : BeamParams) (h : p.P = 0) :
    (if p.P ≠ 0 then p.nP / p.P else 0) = (0 : ℝ) ∧
    ((0.8521 : ℝ) - 0.0183 * (if p.P ≠ 0 then p.nP / p.P else 0)) = 0.8521 ∧
    ∃ pr : PrbParameters,
      (solvePRB1R p BeamModelType.PRB_1R_CANTILEVER_PNP).prbParams = some pr ∧
      pr.gamma = some 0.8521 := by
  have hn : (if p.P ≠ 0 then p.nP / p.P else 0) = (0 : ℝ) := by simp [h]
  refine ⟨hn, by rw [hn]; ring, ?_⟩
  refine ⟨_, rfl, ?_⟩
  show some (prb1rConsts (if p.P ≠ 0 then p.nP / p.P else 0)
    BeamModelType.PRB_1R_CANTILEVER_PNP).gamma = some (0.8521 : ℝ)
  rw [prb1rConsts_PNP_gamma, hn]
  rw [if_pos (by norm_num : (0 : ℝ) > -1.83)]
  have h1 : min (0.95 : ℝ) (0.8521 - 0.0183 * 0) = 0.8521 - 0.0183 * 0 :=
    min_eq_right (by norm_num)
  have h2 : max (0.7 : ℝ) (0.8521 - 0.0183 * 0) = 0.8521 - 0.0183 * 0 :=
    max_eq_right (by norm_num)
  rw [h1, h2]
  norm_num

/-- Witness for C8 at the no-load beam `pNoLoad` (whose `P` is `0`). -/
theorem claim_C8_witness :
    pNoLoad.P = 0 ∧
    ∃ pr : PrbParameters,
      (solvePRB1R pNoLoad BeamModelType.PRB_1R_CANTILEVER_PNP).prbParams = some pr ∧
      pr.gamma = some 0.8521 := by
  have h : pNoLoad.P = 0 := rfl
  obtain ⟨-, -, hpr⟩ := claim_C8 pNoLoad h
  exact ⟨h, hpr⟩

/-- C10: any selector other than the three PRB-1R variants silently falls
back to the default constants `gamma = 0.85`, `K_theta = 2.65`,
`c_theta = 1.24` and returns a full 3-point result whose label and color are
the empty string. -/
theorem claim_C10 (p : BeamParams) (t : BeamModelType)
    (h1 : t ≠ BeamModelType.PRB_1R_CANTILEVER_P)
    (h2 : t ≠ BeamModelType.PRB_1R_CANTILEVER_PNP)
    (h3 : t ≠ BeamModelType.PRB_1R_MOMENT) :
    (solvePRB1R p t).label = "" ∧ (solvePRB1R p t).color = "" ∧
    (solvePRB1R p t).prbParams =
      some ⟨some 0.85, some 2.65, some 1.24, none, none,
        some [0.85 * 2.65 * (p.E * p.I / p.L)]⟩ ∧
    (solvePRB1R p t).points.length = 3 := by
  cases t with
  | LINEAR => exact ⟨rfl, rfl, rfl, rfl⟩
  | NONLINEAR => exact ⟨rfl, rfl, rfl, rfl⟩
  | PRB_1R_CANTILEVER_P => exact absurd rfl h1
  | PRB_1R_CANTILEVER_PNP => exact absurd rfl h2
  | PRB_1R_MOMENT => exact absurd rfl h3
  | PRB_3R_SU => exact ⟨rfl, rfl, rfl, rfl⟩

/-- Witness for C10 at `pStar` with the non-PRB-1R selector `LINEAR`. -/
theorem claim_C10_witness :
    (solvePRB1R pStar BeamModelType.LINEAR).label = "" ∧
    (solvePRB1R pStar BeamModelType.LINEAR).color = "" ∧
    (solvePRB1R pStar BeamModelType.LINEAR).points.length = 3 := by
  obtain ⟨ha, hb, -, hd⟩ := claim_C10 pStar BeamModelType.LINEAR
    (by decide) (by decide) (by decide)
  exact ⟨ha, hb, hd⟩

/-! ## No-load behaviour -/

lemma rk4Step_noload (p : BeamParams) (hP : p.P = 0) (hnP : p.nP = 0)
    (hM : p.M0 = 0) (a b ds x : ℝ) :
    rk4Step p a b ds ⟨x, 0, 0⟩ = ⟨x + ds, 0, 0⟩ := by
  unfold rk4Step getDerivatives
  simp only [hP, hnP, hM, zero_mul, add_zero, zero_add, zero_div, mul_zero,
    Real.cos_zero, Real.sin_zero, one_mul, RKState.mk.injEq]
  norm_num

lemma specNode_noload (p : BeamParams) (hP : p.P = 0) (hnP : p.nP = 0)
    (hM : p.M0 = 0) (a b : ℝ) :
    ∀ i : ℕ, specNode p a b i = ⟨(i : ℝ) * (p.L / 100), 0, 0⟩
  | 0 => by
    unfold specNode
    simp
  | i + 1 => by
    unfold specNode
    rw [Function.iterate_succ_apply']
    have h : (rk4Step p a b (p.L / 100))^[i] ⟨0, 0, 0⟩ =
        (⟨(i : ℝ) * (p.L / 100), 0, 0⟩ : RKState) :=
      specNode_noload p hP hnP hM a b i
    rw [h, rk4Step_noload p hP hnP hM]
    have hc : ((i : ℝ) + 1) * (p.L / 100) = (i : ℝ) * (p.L / 100) + p.L / 100 := by
      ring
    simp [hc]

lemma specTip_noload (p : BeamParams) (hP : p.P = 0) (hnP : p.nP = 0)
    (hM : p.M0 = 0) (a b : ℝ) : specTip p a b = ⟨p.L, 0, 0⟩ := by
  unfold specTip
  rw [specNode_noload p hP hnP hM a b 100]
  have h : ((100 : ℕ) : ℝ) * (p.L / 100) = p.L := by
    push_cast
    ring
  rw [h]

lemma shootAux_break (p : BeamParams) (n : ℕ) (a b : ℝ)
    (h : |(tipOf ((⟨0, 0⟩ : Point) :: (innerTraj p a b).1)).x - a| < 1e-6 ∧
         |(tipOf ((⟨0, 0⟩ : Point) :: (innerTraj p a b).1)).y - b| < 1e-6) :
    shootAux p (n + 1) a b =
      ⟨(⟨0, 0⟩ : Point) :: (innerTraj p a b).1, (innerTraj p a b).2.theta, a, b⟩ := by
  simp only [shootAux]
  rw [if_pos h]

lemma shootAux_noload (p : BeamParams) (hP : p.P = 0) (hnP : p.nP = 0)
    (hM : p.M0 = 0) : shootAux p 15 p.L 0 = ⟨specTraj p p.L 0, 0, p.L, 0⟩ := by
  have htip := tip_innerTraj p p.L 0
  have hsp := specTip_noload p hP hnP hM p.L 0
  rw [hsp] at htip
  show shootAux p (14 + 1) p.L 0 = _
  rw [shootAux_break p 14 p.L 0 (by rw [htip]; norm_num)]
  rw [pts_eq_specTraj, innerTraj_snd, hsp]

lemma newtonLoop_break (K gamma L P nP M0 : ℝ) (n : ℕ) (Th : ℝ)
    (h : |(K * Th - (P * gamma * L * Real.cos Th + nP * gamma * L * Real.sin Th + M0)) /
         (K + P * gamma * L * Real.sin Th - nP * gamma * L * Real.cos Th)| < 1e-8) :
    newtonLoop K gamma L P nP M0 (n + 1) Th =
      Th - (K * Th - (P * gamma * L * Real.cos Th + nP * gamma * L * Real.sin Th + M0)) /
        (K + P * gamma * L * Real.sin Th - nP * gamma * L * Real.cos Th) * 0.8 := by
  simp only [newtonLoop]
  rw [if_pos h]

lemma newtonLoop_noload (K gamma L : ℝ) : newtonLoop K gamma L 0 0 0 30 0 = 0 := by
  show newtonLoop K gamma L 0 0 0 (29 + 1) 0 = 0
  rw [newtonLoop_break K gamma L 0 0 0 29 0 (by norm_num)]
  norm_num

lemma prb3rStep_noload (p : BeamParams) (hP : p.P = 0) (hnP : p.nP = 0)
    (hM : p.M0 = 0) : prb3rStep p (0, 0, 0) = (0, 0, 0) := by
  unfold prb3rStep
  simp [hP, hnP, hM]

lemma prb3rLoop_noload (p : BeamParams) (hP : p.P = 0) (hnP : p.nP = 0)
    (hM : p.M0 = 0) : ∀ n : ℕ, prb3rLoop p n (0, 0, 0) = (0, 0, 0)
  | 0 => rfl
  | n + 1 => by
    simp only [prb3rLoop, prb3rStep_noload p hP hnP hM,
      prb3rLoop_noload p hP hnP hM n]

lemma solvePRB1R_noload (p : BeamParams) (t : BeamModelType) (hP : p.P = 0)
    (hnP : p.nP = 0) (hM : p.M0 = 0) :
    (solvePRB1R p t).tipX = p.L ∧ (solvePRB1R p t).tipY = 0 ∧
    (solvePRB1R p t).tipAngle = 0 ∧ ∀ q ∈ (solvePRB1R p t).points, q.y = 0 := by
  simp only [solvePRB1R, hP, hnP, hM, newtonLoop_noload, Real.cos_zero,
    Real.sin_zero, mul_one, mul_zero, zero_mul, add_zero]
  refine ⟨by ring, trivial, trivial, ?_⟩
  intro q hq
  simp only [List.mem_cons, List.not_mem_nil, or_false] at hq
  rcases hq with rfl | rfl | rfl <;> rfl

lemma solvePRB3R_noload (p : BeamParams) (hP : p.P = 0)
    (hnP : p.nP = 0) (hM : p.M0 = 0) :
    (solvePRB3R p).tipX = p.L ∧ (solvePRB3R p).tipY = 0 ∧
    (solvePRB3R p).tipAngle = 0 ∧ ∀ q ∈ (solvePRB3R p).points, q.y = 0 := by
  simp only [solvePRB3R, prb3rLoop_noload p hP hnP hM, add_zero, zero_add,
    Real.cos_zero, Real.sin_zero, mul_one, mul_zero]
  refine ⟨?_, trivial, trivial, ?_⟩
  · rw [g0, g1, g2, g3]
    ring
  · intro q hq
    simp only [List.mem_cons, List.not_mem_nil, or_false] at hq
    rcases hq with rfl | rfl | rfl | rfl | rfl <;> rfl

/-- C6 counterexample: the claim asserts the no-load tip `tipX = L`
"regardless of `E` and `I`", but at `E = I = 0` the nonlinear solver returns
its empty sentinel with `tipX = 0 ≠ L`. -/
theorem claim_C6_counterexample :
    pZero.P = 0 ∧ pZero.nP = 0 ∧ pZero.M0 = 0 ∧
    (solveNonlinearBeam pZero).tipX ≠ pZero.L := by
  refine ⟨rfl, rfl, rfl, ?_⟩
  unfold solveNonlinearBeam
  rw [if_pos (by norm_num [pZero] : pZero.E * pZero.I = 0)]
  show (0 : ℝ) ≠ pZero.L
  norm_num [pZero]

/-- C6 (amended with `EI ≠ 0`): with no loads, all four models return
`tipX = L`, `tipY = 0`, `tipAngle = 0` and a straight polyline along the
x-axis, for every `E`, `I` with `E·I ≠ 0`. -/
theorem claim_C6_amended (p : BeamParams) (t : BeamModelType)
    (hEI : p.E * p.I ≠ 0) (hP : p.P = 0) (hnP : p.nP = 0) (hM : p.M0 = 0) :
    (solveLinearBeam p).tipX = p.L ∧ (solveLinearBeam p).tipY = 0 ∧
    (solveLinearBeam p).tipAngle = 0 ∧
    (∀ q ∈ (solveLinearBeam p).points, q.y = 0) ∧
    (solveNonlinearBeam p).tipX = p.L ∧ (solveNonlinearBeam p).tipY = 0 ∧
    (solveNonlinearBeam p).tipAngle = 0 ∧
    (∀ q ∈ (solveNonlinearBeam p).points, q.y = 0) ∧
    (solvePRB1R p t).tipX = p.L ∧ (solvePRB1R p t).tipY = 0 ∧
    (solvePRB1R p t).tipAngle = 0 ∧
    (∀ q ∈ (solvePRB1R p t).points, q.y = 0) ∧
    (solvePRB3R p).tipX = p.L ∧ (solvePRB3R p).tipY = 0 ∧
    (solvePRB3R p).tipAngle = 0 ∧
    (∀ q ∈ (solvePRB3R p).points, q.y = 0) := by
  have hnl := shootAux_noload p hP hnP hM
  have htraj : ∀ q ∈ specTraj p p.L 0, q.y = 0 := by
    intro q hq
    simp only [specTraj, List.mem_map] at hq
    obtain ⟨i, -, rfl⟩ := hq
    rw [specNode_noload p hP hnP hM p.L 0 i]
  have htip : tipOf (specTraj p p.L 0) = ⟨p.L, 0⟩ := by
    rw [← pts_eq_specTraj, tip_innerTraj, specTip_noload p hP hnP hM]
  refine ⟨rfl, ?_, ?_, ?_, ?_, ?_, ?_, ?_, ?_, ?_, ?_, ?_, ?_, ?_, ?_, ?_⟩
  · rw [solveLinearBeam_tipY]
    simp [linearY, hP, hM]
  · show p.P * p.L * p.L / (2 * (p.E * p.I)) + p.M0 * p.L / (p.E * p.I) = 0
    simp [hP, hM]
  · intro q hq
    simp only [solveLinearBeam, List.mem_map] at hq
    obtain ⟨i, -, rfl⟩ := hq
    simp [linearY, hP, hM]
  · rw [solveNonlinearBeam_of_ne p hEI, hnl]
    show (tipOf (specTraj p p.L 0)).x = p.L
    rw [htip]
  · rw [solveNonlinearBeam_of_ne p hEI, hnl]
    show (tipOf (specTraj p p.L 0)).y = 0
    rw [htip]
  · rw [solveNonlinearBeam_of_ne p hEI, hnl]
  · rw [solveNonlinearBeam_of_ne p hEI, hnl]
    exact htraj
  · exact (solvePRB1R_noload p t hP hnP hM).1
  · exact (solvePRB1R_noload p t hP hnP hM).2.1
  · exact (solvePRB1R_noload p t hP hnP hM).2.2.1
  · exact (solvePRB1R_noload p t hP hnP hM).2.2.2
  · exact (solvePRB3R_noload p hP hnP hM).1
  · exact (solvePRB3R_noload p hP hnP hM).2.1
  · exact (solvePRB3R_noload p hP hnP hM).2.2.1
  · exact (solvePRB3R_noload p hP hnP hM).2.2.2

/-- Witness for the amended C6 at the nondegenerate no-load beam `pNoLoad`. -/
theorem claim_C6_amended_witness :
    pNoLoad.E * pNoLoad.I ≠ 0 ∧ pNoLoad.P = 0 ∧ pNoLoad.nP = 0 ∧ pNoLoad.M0 = 0 ∧
    (solveLinearBeam pNoLoad).tipX = pNoLoad.L ∧
    (solveNonlinearBeam pNoLoad).tipX = pNoLoad.L ∧
    (solvePRB1R pNoLoad BeamModelType.LINEAR).tipX = pNoLoad.L ∧
    (solvePRB3R pNoLoad).tipX = pNoLoad.L := by
  have hEI : pNoLoad.E * pNoLoad.I ≠ 0 := by norm_num [pNoLoad]
  obtain ⟨h1, -, -, -, h5, -, -, -, h9, -, -, -, h13, -, -, -⟩ :=
    claim_C6_amended pNoLoad BeamModelType.LINEAR hEI rfl rfl rfl
  exact ⟨hEI, rfl, rfl, rfl, h1, h5, h9, h13⟩

/-! ## Refinement of the shooting loop against the spec description -/

lemma shootAux_spec (p : BeamParams) :
    ∀ (fuel : ℕ), 1 ≤ fuel → ∀ (a b : ℝ),
      shootAux p fuel a b =
        ⟨specTraj p (specLoop p fuel (a, b)).1.1 (specLoop p fuel (a, b)).1.2,
         (specTip p (specLoop p fuel (a, b)).1.1 (specLoop p fuel (a, b)).1.2).theta,
         (specLoop p fuel (a, b)).2.1, (specLoop p fuel (a, b)).2.2⟩
  | 0, h => absurd h (by norm_num)
  | n + 1, _ => by
    intro a b
    simp only [shootAux, specLoop]
    rw [tip_innerTraj p a b]
    dsimp only
    split_ifs with h1 h2
    · rw [pts_eq_specTraj, innerTraj_snd]
    · simp only [ShootOut.mk.injEq]
      refine ⟨by rw [pts_eq_specTraj], by rw [innerTraj_snd], by ring, by ring⟩
    · have hg : (a + ((specTip p a b).x - a) * 0.5, b + ((specTip p a b).y - b) * 0.5) =
          (a + 0.5 * ((specTip p a b).x - a), b + 0.5 * ((specTip p a b).y - b)) := by
        rw [Prod.mk.injEq]
        exact ⟨by ring, by ring⟩
      rw [shootAux_spec p n (Nat.one_le_iff_ne_zero.mpr h2) _ _, ← hg]

/-- C1: for `EI ≠ 0`, `solveNonlinearBeam` follows the shooting algorithm of
the spec exactly: starting from the guess `(L, 0)`, at most 15 damped
fixed-point iterations (`guess + 0.5 * residual`, early exit when both
residual components are below `1e-6`), each integrating the elastica ODE by
RK4 in 100 equal steps from `(0, 0, 0)`; the returned polyline is the last
integration trajectory (101 points including the origin), the tip is the
integrated node 100, and `tipAngle` is the integrated `θ(L)`. -/
theorem claim_C1 (p : BeamParams) (h : p.E * p.I ≠ 0) :
    (solveNonlinearBeam p).points = specTraj p (specGuess p).1 (specGuess p).2 ∧
    (solveNonlinearBeam p).points.length = 101 ∧
    (solveNonlinearBeam p).points.head? = some ⟨0, 0⟩ ∧
    (solveNonlinearBeam p).tipX = (specTip p (specGuess p).1 (specGuess p).2).x ∧
    (solveNonlinearBeam p).tipY = (specTip p (specGuess p).1 (specGuess p).2).y ∧
    (solveNonlinearBeam p).tipAngle =
      (specTip p (specGuess p).1 (specGuess p).2).theta := by
  rw [solveNonlinearBeam_of_ne p h, shootAux_spec p 15 (by norm_num) p.L 0]
  unfold specGuess
  refine ⟨rfl, ?_, ?_, ?_, ?_, rfl⟩
  · simp [specTraj]
  · rw [← pts_eq_specTraj]
    rfl
  · rw [← pts_eq_specTraj, tip_innerTraj]
  · rw [← pts_eq_specTraj, tip_innerTraj]

/-- Witness for C1 at the concrete beam `pStar`. -/
theorem claim_C1_witness :
    pStar.E * pStar.I ≠ 0 ∧
    (solveNonlinearBeam pStar).points =
      specTraj pStar (specGuess pStar).1 (specGuess pStar).2 ∧
    (solveNonlinearBeam pStar).points.length = 101 ∧
    (solveNonlinearBeam pStar).points.head? = some ⟨0, 0⟩ := by
  have h : pStar.E * pStar.I ≠ 0 := by norm_num [pStar]
  obtain ⟨h1, h2, h3, -⟩ := claim_C1 pStar h
  exact ⟨h, h1, h2, h3⟩

/-! ## C4: where the nonlinear solver evaluates its stress moment

The source computes `maxStress = |(P·a + nP·b + M0)·c/I|`, the moment at the
*base* station `(x, y) = (0, 0)`.  The claim says it is the moment at the
*tip* station `(x(L), y(L))`.  On `pStar` these provably differ: interval
invariants pushed through the RK4 integration show the converged guess `a`
and the integrated tip `x(L)` both lie in `[0.98, 1]`, so the base moment is
at least `0.098` while the claimed tip moment is at most `0.002`. -/

lemma cos_bound_small {t : ℝ} (h : |t| ≤ 0.15) :
    0.98 ≤ Real.cos t ∧ Real.cos t ≤ 1 := by
  constructor
  · have h1 := Real.one_sub_sq_div_two_le_cos (x := t)
    have h2 : t ^ 2 ≤ 0.0225 := by
      have h3 := abs_nonneg t
      nlinarith [sq_abs t]
    linarith
  · exact Real.cos_le_one t

lemma rk4Step_pStar (a b ds x y th : ℝ) :
    rk4Step pStar a b ds ⟨x, y, th⟩ =
      ⟨x + ds / 6 * (Real.cos th
          + 2 * Real.cos (th + (a - x) / 10 * ds / 2)
          + 2 * Real.cos (th + (a - (x + Real.cos th * ds / 2)) / 10 * ds / 2)
          + Real.cos (th + (a - (x + Real.cos (th + (a - x) / 10 * ds / 2) * ds / 2)) /
              10 * ds)),
       y + ds / 6 * (Real.sin th
          + 2 * Real.sin (th + (a - x) / 10 * ds / 2)
          + 2 * Real.sin (th + (a - (x + Real.cos th * ds / 2)) / 10 * ds / 2)
          + Real.sin (th + (a - (x + Real.cos (th + (a - x) / 10 * ds / 2) * ds / 2)) /
              10 * ds)),
       th + ds / 6 * ((a - x) / 10
          + 2 * ((a - (x + Real.cos th * ds / 2)) / 10)
          + 2 * ((a - (x + Real.cos (th + (a - x) / 10 * ds / 2) * ds / 2)) / 10)
          + (a - (x + Real.cos (th + (a - (x + Real.cos th * ds / 2)) / 10 * ds / 2) *
              ds)) / 10)⟩ := by
  unfold rk4Step getDerivatives
  simp only [pStar]
  rw [RKState.mk.injEq]
  refine ⟨?_, ?_, ?_⟩ <;> ring_nf

lemma rk4Step_bound (a b : ℝ) (st : RKState) (ha1 : 0.98 ≤ a) (ha2 : a ≤ 1)
    (hx1 : 0 ≤ st.x) (hx2 : st.x ≤ 0.99) (hth : |st.theta| ≤ 0.11) :
    st.x + 0.0098 ≤ (rk4Step pStar a b (1 / 100) st).x ∧
    (rk4Step pStar a b (1 / 100) st).x ≤ st.x + 0.01 ∧
    |(rk4Step pStar a b (1 / 100) st).theta - st.theta| ≤ 0.0011 := by
  obtain ⟨x, y, th⟩ := st
  dsimp only at hx1 hx2 hth
  rw [rk4Step_pStar]
  dsimp only
  rw [abs_le] at hth
  obtain ⟨hthl, hthr⟩ := hth
  have hc1 := cos_bound_small (t := th) (abs_le.mpr ⟨by linarith, by linarith⟩)
  have hc2 := cos_bound_small (t := th + (a - x) / 10 * (1 / 100) / 2)
    (abs_le.mpr ⟨by linarith, by linarith⟩)
  have hc3 := cos_bound_small
    (t := th + (a - (x + Real.cos th * (1 / 100) / 2)) / 10 * (1 / 100) / 2)
    (abs_le.mpr ⟨by nlinarith [hc1.1, hc1.2], by nlinarith [hc1.1, hc1.2]⟩)
  have hc4 := cos_bound_small
    (t := th + (a - (x + Real.cos (th + (a - x) / 10 * (1 / 100) / 2) *
      (1 / 100) / 2)) / 10 * (1 / 100))
    (abs_le.mpr ⟨by nlinarith [hc2.1, hc2.2], by nlinarith [hc2.1, hc2.2]⟩)
  refine ⟨?_, ?_, ?_⟩
  · nlinarith [hc1.1, hc1.2, hc2.1, hc2.2, hc3.1, hc3.2, hc4.1, hc4.2]
  · nlinarith [hc1.1, hc1.2, hc2.1, hc2.2, hc3.1, hc3.2, hc4.1, hc4.2]
  · rw [abs_le]
    constructor
    · nlinarith [hc1.1, hc1.2, hc2.1, hc2.2, hc3.1, hc3.2]
    · nlinarith [hc1.1, hc1.2, hc2.1, hc2.2, hc3.1, hc3.2]

lemma rkTraj_inv (a b : ℝ) (ha1 : 0.98 ≤ a) (ha2 : a ≤ 1) :
    ∀ (n j : ℕ) (st : RKState), n + j = 100 →
      0.0098 * (j : ℝ) ≤ st.x → st.x ≤ 0.01 * (j : ℝ) →
      |st.theta| ≤ 0.0011 * (j : ℝ) →
      0.98 ≤ (rkTraj pStar a b (1 / 100) n st).2.x ∧
      (rkTraj pStar a b (1 / 100) n st).2.x ≤ 1
  | 0, j, st => by
    intro hnj hx1 hx2 hth
    have hj : j = 100 := by omega
    subst hj
    simp only [rkTraj]
    norm_num at hx1 hx2
    exact ⟨by linarith, by linarith⟩
  | n + 1, j, st => by
    intro hnj hx1 hx2 hth
    have hjn : j ≤ 99 := by omega
    have hjr : (j : ℝ) ≤ 99 := by exact_mod_cast hjn
    have hj0 : (0 : ℝ) ≤ (j : ℝ) := Nat.cast_nonneg j
    have hx0 : 0 ≤ st.x := by nlinarith
    have hxu : st.x ≤ 0.99 := by nlinarith
    have hthu : |st.theta| ≤ 0.11 := by
      have h9 : (0.0011 : ℝ) * (j : ℝ) ≤ 0.1089 := by nlinarith
      linarith
    obtain ⟨hb1, hb2, hb3⟩ := rk4Step_bound a b st ha1 ha2 hx0 hxu hthu
    obtain ⟨hd1, hd2⟩ := abs_le.mp hb3
    obtain ⟨he1, he2⟩ := abs_le.mp hth
    simp only [rkTraj]
    refine rkTraj_inv a b ha1 ha2 n (j + 1) (rk4Step pStar a b (1 / 100) st)
      (by omega) ?_ ?_ ?_
    · push_cast
      linarith
    · push_cast
      linarith
    · rw [abs_le]
      push_cast
      exact ⟨by linarith, by linarith⟩

lemma tip_rkTraj_pStar (a b : ℝ) :
    (tipOf ((⟨0, 0⟩ : Point) :: (innerTraj pStar a b).1)).x =
      (rkTraj pStar a b (1 / 100) 100 ⟨0, 0, 0⟩).2.x := by
  have hds : pStar.L / 100 = (1 : ℝ) / 100 := by norm_num [pStar]
  have hspec : specTip pStar a b = (rkTraj pStar a b (1 / 100) 100 ⟨0, 0, 0⟩).2 := by
    unfold specTip specNode
    rw [hds, rkTraj_snd]
  rw [tip_innerTraj]
  dsimp only
  rw [hspec]

lemma shootAux_inv :
    ∀ (fuel : ℕ) (a b : ℝ), 1 ≤ fuel → 0.98 ≤ a → a ≤ 1 →
      0.98 ≤ (shootAux pStar fuel a b).a ∧ (shootAux pStar fuel a b).a ≤ 1 ∧
      0.98 ≤ (tipOf (shootAux pStar fuel a b).points).x ∧
      (tipOf (shootAux pStar fuel a b).points).x ≤ 1
  | 0, a, b, h, _, _ => absurd h (by norm_num)
  | n + 1, a, b, _, ha1, ha2 => by
    have htraj := rkTraj_inv a b ha1 ha2 100 0 ⟨0, 0, 0⟩ (by norm_num)
      (by norm_num) (by norm_num) (by norm_num)
    have htipx := tip_rkTraj_pStar a b
    simp only [shootAux]
    split_ifs with h1 h2
    · dsimp only
      rw [htipx]
      exact ⟨ha1, ha2, htraj.1, htraj.2⟩
    · dsimp only
      rw [htipx]
      exact ⟨by linarith [htraj.1, htraj.2], by linarith [htraj.1, htraj.2],
        htraj.1, htraj.2⟩
    · rw [htipx]
      exact shootAux_inv n _ _ (Nat.one_le_iff_ne_zero.mpr h2)
        (by linarith [htraj.1, htraj.2]) (by linarith [htraj.1, htraj.2])

lemma stress_ne_helper (A B X Y : ℝ) (hA1 : 0.98 ≤ A) (hA2 : A ≤ 1)
    (hX1 : 0.98 ≤ X) (hX2 : X ≤ 1) :
    |(pStar.P * A + pStar.nP * B + pStar.M0) * pStar.c / pStar.I| ≠
      |(pStar.P * (A - X) + pStar.nP * (B - Y) + pStar.M0) * pStar.c / pStar.I| := by
  have e1 : (pStar.P * A + pStar.nP * B + pStar.M0) * pStar.c / pStar.I =
      0.1 * A := by
    norm_num [pStar]
  have e2 : (pStar.P * (A - X) + pStar.nP * (B - Y) + pStar.M0) * pStar.c / pStar.I =
      0.1 * (A - X) := by
    norm_num [pStar]
  rw [e1, e2, abs_of_nonneg (by linarith : (0 : ℝ) ≤ 0.1 * A)]
  intro he
  have hR := abs_le.mp (le_of_eq he.symm)
  have : (0.1 : ℝ) * (A - X) ≤ 0.002 := by nlinarith [abs_nonneg (0.1 * (A - X))]
  have h8 : (0.098 : ℝ) ≤ 0.1 * A := by linarith
  have h9 : |0.1 * (A - X)| ≤ 0.02 := by
    rw [abs_le]
    constructor <;> nlinarith
  linarith [he ▸ h8]

lemma shootFinalGuess_eq (p : BeamParams) :
    shootFinalGuess p = ((shootAux p 15 p.L 0).a, (shootAux p 15 p.L 0).b) := rfl

/-- C4 counterexample: at `pStar` the returned `maxStress` differs from the
magnitude of the converged moment evaluated at the tip station
`M(L) = P(a - x(L)) + nP(b - y(L)) + M0` scaled by `c/I`. -/
theorem claim_C4_counterexample :
    (solveNonlinearBeam pStar).maxStress ≠
      |(pStar.P * ((shootFinalGuess pStar).1 - (solveNonlinearBeam pStar).tipX) +
        pStar.nP * ((shootFinalGuess pStar).2 - (solveNonlinearBeam pStar).tipY) +
        pStar.M0) * pStar.c / pStar.I| := by
  have hEI : pStar.E * pStar.I ≠ 0 := by norm_num [pStar]
  have hL1 : (0.98 : ℝ) ≤ pStar.L := by norm_num [pStar]
  have hL2 : pStar.L ≤ 1 := by norm_num [pStar]
  obtain ⟨hA1, hA2, hX1, hX2⟩ := shootAux_inv 15 pStar.L 0 (by norm_num) hL1 hL2
  rw [solveNonlinearBeam_of_ne pStar hEI, shootFinalGuess_eq]
  dsimp only
  exact stress_ne_helper _ _ _ _ hA1 hA2 hX1 hX2

/-- C4 (amended): `maxStress` is the magnitude of the converged moment
evaluated at the *base* station `(0, 0)` — `M(0) = P·a + nP·b + M0` with
`(a, b)` the converged tip guess — scaled by `c/I`, not the moment at the
tip station. -/
theorem claim_C4_amended (p : BeamParams) (h : p.E * p.I ≠ 0) :
    (solveNonlinearBeam p).maxStress =
      |momentAt p (shootFinalGuess p).1 (shootFinalGuess p).2 0 0 * p.c / p.I| := by
  rw [solveNonlinearBeam_of_ne p h, shootFinalGuess_eq]
  unfold momentAt
  dsimp only
  congr 2
  ring

/-- Witness for the amended C4 at the concrete beam `pStar`. -/
theorem claim_C4_amended_witness :
    pStar.E * pStar.I ≠ 0 ∧
    (solveNonlinearBeam pStar).maxStress =
      |momentAt pStar (shootFinalGuess pStar).1 (shootFinalGuess pStar).2 0 0 *
        pStar.c / pStar.I| := by
  have h : pStar.E * pStar.I ≠ 0 := by norm_num [pStar]
  exact ⟨h, claim_C4_amended pStar h⟩

end PRB
